import Mathlib

set_option maxRecDepth 100000

/-!
Shallow embedding of the progress-reconciliation subsystem of the
Jira-GitLab agent repository.

Documents (merge-request descriptions) are modelled as lists of
characters, mirroring Python string operations character by character:
`str.find` becomes `findSub` / `findSubFrom`, the `in` substring test
becomes `containsSub`, `str.split` on a newline becomes `splitOnNl`,
and `str.lower` becomes `lower`.

The embedded functions keep the names of the source methods:
`ProgressTracker._parse_progress_section`,
`ProgressTracker._update_progress_section`,
`ProgressTracker.update_progress`,
`ProgressTracker.check_test_progress` (file `jira_gitlab_agent.py`) and
`StatusMonitor.add_merge_request`, `StatusMonitor.remove_merge_request`,
`StatusMonitor.update_merge_request_status` and the per-entry body of
`StatusMonitor.monitor_loop` (file `status_monitor.py`).  Collaborator
calls (GitLab and Jira clients) are modelled by passing their observed
results as explicit arguments and by recording their write effects in
result structures.
-/

/-- Lowercase a document, mirroring the Python `str.lower` call on the
ASCII text handled by the tracker. -/
def lower (s : List Char) : List Char := s.map Char.toLower

/-- Python substring test `needle in hay`. -/
def containsSub (needle : List Char) : List Char → Bool
  | [] => needle.isEmpty
  | c :: t => needle.isPrefixOf (c :: t) || containsSub needle t

/-- Python `hay.find(needle)`: index of the first occurrence, `none`
standing for the `-1` sentinel. -/
def findSub (needle : List Char) : List Char → Option Nat
  | [] => if needle.isEmpty then some 0 else none
  | c :: t =>
    if needle.isPrefixOf (c :: t) then some 0
    else (findSub needle t).map (fun k => k + 1)

/-- Python `hay.find(needle, start)`: first occurrence at index at least
`start`. -/
def findSubFrom (needle hay : List Char) (start : Nat) : Option Nat :=
  (findSub needle (hay.drop start)).map (fun k => k + start)

/-- Python `s.split` on a newline character. -/
def splitOnNl : List Char → List (List Char)
  | [] => [[]]
  | c :: rest =>
    if c = '\n' then [] :: splitOnNl rest
    else
      match splitOnNl rest with
      | [] => [[c]]
      | l :: ls => (c :: l) :: ls

/-- The checklist state tracked in a merge-request description: the
`progress` dictionary of `ProgressTracker`. -/
structure Progress where
  setup : Bool
  implementation : Bool
  tests : Bool
  documentation : Bool
  review : Bool
  acceptance : Bool
deriving DecidableEq

/-- The all-false dictionary `_parse_progress_section` starts from and
returns when no section is found. -/
def defaultProgress : Progress :=
  { setup := false, implementation := false, tests := false,
    documentation := false, review := false, acceptance := false }

/-- The section header marker `## Progress Tracking`. -/
def progressHeader : List Char := "## Progress Tracking".toList

/-- The two-character marker the code searches for to terminate the
section: `description.find` with argument `##`. -/
def hashMarker : List Char := "##".toList

/-- The checked-checkbox marker `- [x]` tested against the lowercased
line. -/
def checkedMark : List Char := "- [x]".toList

def kwSetup : List Char := "setup".toList

def kwImplementation : List Char := "implementation".toList

def kwTest : List Char := "test".toList

def kwDocumentation : List Char := "documentation".toList

def kwReview : List Char := "review".toList

def kwAcceptance : List Char := "acceptance".toList

/-- Effect of one line of the section on the progress dictionary: the
checkbox test and the if/elif keyword chain of
`_parse_progress_section` (lines 52-65 of `jira_gitlab_agent.py`). -/
def applyCheckedLine (line : List Char) (p : Progress) : Progress :=
  if containsSub checkedMark (lower line) then
    if containsSub kwSetup (lower line) then { p with setup := true }
    else if containsSub kwImplementation (lower line) then { p with implementation := true }
    else if containsSub kwTest (lower line) then { p with tests := true }
    else if containsSub kwDocumentation (lower line) then { p with documentation := true }
    else if containsSub kwReview (lower line) then { p with review := true }
    else if containsSub kwAcceptance (lower line) then { p with acceptance := true }
    else p
  else p

/-- Fold of `applyCheckedLine` over the lines of the extracted section,
starting from the all-false dictionary. -/
def parseSectionLines (sect : List Char) : Progress :=
  (splitOnNl sect).foldl (fun p line => applyCheckedLine line p) defaultProgress

/-- `ProgressTracker._parse_progress_section`: locate the section by the
header marker, slice it up to the next occurrence of `##` (or the end of
the document), and fold the checkbox lines. -/
def _parse_progress_section (description : List Char) : Progress :=
  match findSub progressHeader description with
  | none => defaultProgress
  | some start =>
    match findSubFrom hashMarker description (start + 1) with
    | none => parseSectionLines (description.drop start)
    | some e => parseSectionLines ((description.take e).drop start)

/-- One rendered checkbox line, `- [x] <label>` or `- [ ] <label>`. -/
def checkboxLine (b : Bool) (label : List Char) : List Char :=
  "- [".toList ++ [if b then 'x' else ' '] ++ "] ".toList ++ label ++ ['\n']

/-- The canonical section text built by `_update_progress_section`:
header line, six checkbox lines in fixed order, one blank line. -/
def renderProgressSection (p : Progress) : List Char :=
  "## Progress Tracking\n".toList
  ++ checkboxLine p.setup "Initial setup complete".toList
  ++ checkboxLine p.implementation "Core functionality implemented".toList
  ++ checkboxLine p.tests "Tests added and passing".toList
  ++ checkboxLine p.documentation "Documentation complete".toList
  ++ checkboxLine p.review "Code reviewed".toList
  ++ checkboxLine p.acceptance "Acceptance criteria met".toList
  ++ ['\n']

/-- `ProgressTracker._update_progress_section`: if the header is absent
return the document unchanged; otherwise replace the slice from the
header up to the next occurrence of `##` (everything to the end of the
document when there is none) with the canonical section. -/
def _update_progress_section (description : List Char) (p : Progress) : List Char :=
  match findSub progressHeader description with
  | none => description
  | some start =>
    match findSubFrom hashMarker description (start + 1) with
    | none => description.take start ++ renderProgressSection p
    | some e => (description.take start ++ renderProgressSection p) ++ description.drop e

/-- The boolean results of the five collaborator-backed checks invoked
by `update_progress`: `check_structure_progress`,
`check_implementation_progress`, `check_test_progress`,
`check_documentation_progress`, `check_review_progress`.  Each is a
fact about external repository state, so it enters the model as an
input. -/
structure Signals where
  setup : Bool
  implementation : Bool
  tests : Bool
  documentation : Bool
  review : Bool
deriving DecidableEq

/-- The `new_progress` dictionary built by `update_progress`: the five
collected signals plus the acceptance value copied from the stored
(parsed) state. -/
def collected_state (description : List Char) (sig : Signals) : Progress :=
  { setup := sig.setup, implementation := sig.implementation, tests := sig.tests,
    documentation := sig.documentation, review := sig.review,
    acceptance := (_parse_progress_section description).acceptance }

/-- Result of one `update_progress` cycle: the returned dictionary and
the list of description texts written back through `mr.save`. -/
structure UpdateResult where
  progress : Progress
  writes : List (List Char)
deriving DecidableEq

/-- `ProgressTracker.update_progress`: parse the stored state, build the
new state from the collected signals keeping the stored acceptance
value, and write the re-rendered description back only when the new
state differs from the stored one. -/
def update_progress (description : List Char) (sig : Signals) : UpdateResult :=
  if collected_state description sig = _parse_progress_section description then
    { progress := collected_state description sig, writes := [] }
  else
    { progress := collected_state description sig,
      writes := [_update_progress_section description (collected_state description sig)] }

/-- `ProgressTracker.check_test_progress`: the file listing returned by
the tree query under the `tests` path is filtered by the `test_` name
check; when the pipeline status is known it must additionally equal
`success`. -/
def check_test_progress (testsTree : List (List Char)) (pipeline : Option (List Char)) : Bool :=
  match pipeline with
  | some status =>
      decide (0 < (testsTree.filter (fun path => ("test_".toList).isPrefixOf path)).length)
        && (status == "success".toList)
  | none =>
      decide (0 < (testsTree.filter (fun path => ("test_".toList).isPrefixOf path)).length)

/-- The status mapping of `StatusMonitor.update_jira_status`
(lines 91-98 of `status_monitor.py`). -/
def derive_status (p : Progress) : List Char :=
  if p.acceptance then "done".toList
  else if p.review then "in_review".toList
  else if p.implementation || p.tests || p.documentation then "in_progress".toList
  else "to_do".toList

/-- One tracked merge request: the dictionary stored in
`StatusMonitor.active_mrs`. -/
structure TrackedEntry where
  project_id : Nat
  mr_iid : Nat
  issue_key : List Char
  last_update : Nat
deriving DecidableEq

/-- The `active_mrs` dictionary, as an association list keyed by the
formatted string key (insertion order preserved, keys unique). -/
abbrev TrackedStore := List (List Char × TrackedEntry)

/-- The dictionary key built by the f-string `{project_id}:{mr_iid}`. -/
def mrKey (project_id mr_iid : Nat) : List Char :=
  (Nat.repr project_id).toList ++ [':'] ++ (Nat.repr mr_iid).toList

/-- `StatusMonitor.add_merge_request`: insert a fresh entry only when
the key is absent. -/
def add_merge_request (store : TrackedStore) (project_id mr_iid : Nat)
    (issue_key : List Char) (now : Nat) : TrackedStore :=
  if store.any (fun kv => kv.fst == mrKey project_id mr_iid) then store
  else store ++ [(mrKey project_id mr_iid,
    { project_id := project_id, mr_iid := mr_iid, issue_key := issue_key,
      last_update := now })]

/-- `StatusMonitor.remove_merge_request`: delete the entry with the
given key when present. -/
def remove_merge_request (store : TrackedStore) (project_id mr_iid : Nat) : TrackedStore :=
  store.filter (fun kv => !(kv.fst == mrKey project_id mr_iid))

/-- The `mr_info` mutation at the end of the monitor loop body: set
`last_update` on the entry with the given key, a no-op when the entry
was removed. -/
def set_last_update (store : TrackedStore) (key : List Char) (now : Nat) : TrackedStore :=
  store.map (fun kv =>
    if kv.fst == key then (kv.fst, { kv.snd with last_update := now }) else kv)

/-- Result of `StatusMonitor.update_merge_request_status` for one merge
request: the store after the terminal-state check, the returned
progress, and the description write-backs performed inside
`update_progress`. -/
structure MrCycleResult where
  store : TrackedStore
  progress : Progress
  writes : List (List Char)
deriving DecidableEq

/-- `StatusMonitor.update_merge_request_status`: run the progress update
(with its possible description write-back), then remove the entry when
the observed merge-request state is `merged` or `closed`, and return
the progress in every case. -/
def update_merge_request_status (store : TrackedStore) (project_id mr_iid : Nat)
    (description : List Char) (sig : Signals) (mr_state : List Char) : MrCycleResult :=
  { store := if (mr_state == "merged".toList) || (mr_state == "closed".toList) then
               remove_merge_request store project_id mr_iid
             else store,
    progress := (update_progress description sig).progress,
    writes := (update_progress description sig).writes }

/-- Result of the monitor loop body for one due entry: the updated
store, the Jira status pushes performed through
`StatusMonitor.update_jira_status`, and the description write-backs. -/
structure LoopStepResult where
  store : TrackedStore
  pushes : List (List Char × List Char)
  writes : List (List Char)
deriving DecidableEq

/-- The body of `StatusMonitor.monitor_loop` for one due entry on the
non-exceptional path: call `update_merge_request_status`, then (the
returned progress dictionary being non-empty) push the derived Jira
status, then set the entry timestamp. -/
def monitor_entry_step (store : TrackedStore) (entry : TrackedEntry)
    (description : List Char) (sig : Signals) (mr_state : List Char) (now : Nat) :
    LoopStepResult :=
  { store := set_last_update
      (update_merge_request_status store entry.project_id entry.mr_iid
        description sig mr_state).store
      (mrKey entry.project_id entry.mr_iid) now,
    pushes := [(entry.issue_key,
      derive_status (update_merge_request_status store entry.project_id entry.mr_iid
        description sig mr_state).progress)],
    writes := (update_merge_request_status store entry.project_id entry.mr_iid
        description sig mr_state).writes }

/-- The six checklist items, in the fixed order of the parser. -/
inductive ChecklistItem
  | setup
  | implementation
  | tests
  | documentation
  | review
  | acceptance
deriving DecidableEq

/-- Set one item of the dictionary to true. -/
def setItem (p : Progress) : ChecklistItem → Progress
  | .setup => { p with setup := true }
  | .implementation => { p with implementation := true }
  | .tests => { p with tests := true }
  | .documentation => { p with documentation := true }
  | .review => { p with review := true }
  | .acceptance => { p with acceptance := true }

/-- The fixed ordered item/keyword table of the parser, in source
order. -/
def orderedKeywords : List (ChecklistItem × List Char) :=
  [(ChecklistItem.setup, kwSetup),
   (ChecklistItem.implementation, kwImplementation),
   (ChecklistItem.tests, kwTest),
   (ChecklistItem.documentation, kwDocumentation),
   (ChecklistItem.review, kwReview),
   (ChecklistItem.acceptance, kwAcceptance)]

/-- First item of a table whose keyword occurs in the given lowercased
line. -/
def firstMatchIn : List (ChecklistItem × List Char) → List Char → Option ChecklistItem
  | [], _ => none
  | kv :: rest, l => if containsSub kv.snd l then some kv.fst else firstMatchIn rest l

/-- The item selected by first-match keyword lookup over the fixed
ordered table, as the spec words it. -/
def firstMatch (l : List Char) : Option ChecklistItem := firstMatchIn orderedKeywords l

/-- Number of items on which two dictionaries differ. -/
def diffCount (p q : Progress) : Nat :=
  (if p.setup = q.setup then 0 else 1)
  + (if p.implementation = q.implementation then 0 else 1)
  + (if p.tests = q.tests then 0 else 1)
  + (if p.documentation = q.documentation then 0 else 1)
  + (if p.review = q.review then 0 else 1)
  + (if p.acceptance = q.acceptance then 0 else 1)

/-- The canonical section rendered with only the implementation item
checked. -/
def docImplChecked : List Char :=
  renderProgressSection { defaultProgress with implementation := true }

/-- The canonical section rendered with only the acceptance item
checked. -/
def docAccChecked : List Char :=
  renderProgressSection { defaultProgress with acceptance := true }

/-- A document without a checklist header. -/
def docPlainText : List Char := "plain description text, no checklist".toList

/-- A document whose section is followed by a further level-two
header. -/
def docWithTail : List Char := "intro\n## Progress Tracking\nbody\n## End".toList

/-- A document in which the recognized section is followed by a
level-one header: the code deletes everything from the header marker to
the end of the document when no further `##` occurs. -/
def docLevelOneTail : List Char :=
  "intro\n## Progress Tracking\n- [ ] setup\n\n# Top\ntail".toList

/-- All five collected signals false. -/
def sigAllFalse : Signals :=
  { setup := false, implementation := false, tests := false,
    documentation := false, review := false }

/-- A tracked entry used for the monitor-loop scenarios. -/
def entryMonitored : TrackedEntry :=
  { project_id := 1, mr_iid := 2, issue_key := "PROJ-9".toList, last_update := 0 }

/-- A store holding exactly the monitored entry. -/
def storeMonitored : TrackedStore := [(mrKey 1 2, entryMonitored)]

/-- A tracked entry used for the registration scenario. -/
def entryRegistered : TrackedEntry :=
  { project_id := 4, mr_iid := 7, issue_key := "PROJ-1".toList, last_update := 3 }

/-- A store holding exactly the registered entry. -/
def storeRegistered : TrackedStore := [(mrKey 4 7, entryRegistered)]

/-- C1: For any document containing a valid checklist section, rendering
the state extracted from the document back into that same document is
claimed to be the identity.  Evaluating the code at the canonically
rendered section whose implementation item is checked shows the parser
never recovers the implementation item (the keyword `implementation` is
not a substring of the rendered label `Core functionality implemented`),
so the round trip unchecks that line and returns a different document. -/
theorem C1_roundtrip_breaks :
    (_parse_progress_section docImplChecked).implementation = false
    ∧ _update_progress_section docImplChecked (_parse_progress_section docImplChecked)
        ≠ docImplChecked := by
  constructor
  · decide
  · decide

/-- Helper: a failed substring test means the find returns the `-1`
sentinel. -/
theorem findSub_eq_none_of_contains_false (needle : List Char) :
    ∀ hay : List Char, containsSub needle hay = false → findSub needle hay = none := by
  intro hay
  induction hay with
  | nil =>
    intro h
    simp [containsSub] at h
    simp [findSub, h]
  | cons c t ih =>
    intro h
    simp [containsSub, Bool.or_eq_false_iff] at h
    simp [findSub, h.1, ih h.2]

/-- Helper: the returned progress of a cycle is the collected state in
both branches of the write decision. -/
theorem update_progress_progress_eq (description : List Char) (sig : Signals) :
    (update_progress description sig).progress = collected_state description sig := by
  unfold update_progress
  split <;> rfl

/-- C2: for every document whose stored checklist has acceptance true, a
reconciliation cycle returns a state with acceptance true regardless of
the collected signals: acceptance is copied from the stored state. -/
theorem C2_acceptance_preserved (description : List Char) (sig : Signals)
    (h : (_parse_progress_section description).acceptance = true) :
    (update_progress description sig).progress.acceptance = true := by
  rw [update_progress_progress_eq]
  simp [collected_state, h]

/-- C2 witness: a concrete document with acceptance checked keeps
acceptance true through a cycle in which every signal is collected
false. -/
theorem C2_acceptance_preserved_witness :
    (_parse_progress_section docAccChecked).acceptance = true
    ∧ (update_progress docAccChecked sigAllFalse).progress.acceptance = true := by
  constructor
  · decide
  · exact C2_acceptance_preserved docAccChecked sigAllFalse (by decide)

/-- C4: each cycle performs at most one document write-back, and a cycle
in which the collected state equals the stored state performs no write
at all. -/
theorem C4_at_most_one_write (description : List Char) (sig : Signals) :
    (update_progress description sig).writes.length ≤ 1
    ∧ (collected_state description sig = _parse_progress_section description →
        (update_progress description sig).writes = []) := by
  unfold update_progress
  split <;> simp_all

/-- C4 witness: on a concrete document with no section and all signals
false the collected state equals the stored state and no write
happens. -/
theorem C4_at_most_one_write_witness :
    (collected_state docPlainText sigAllFalse = _parse_progress_section docPlainText)
    ∧ (update_progress docPlainText sigAllFalse).writes = []
    ∧ (update_progress docPlainText sigAllFalse).writes.length ≤ 1 := by
  refine ⟨by decide, ?_, ?_⟩
  · exact (C4_at_most_one_write docPlainText sigAllFalse).2 (by decide)
  · exact (C4_at_most_one_write docPlainText sigAllFalse).1

/-- C6: the derived work-item status follows the ordered first-match
policy: acceptance gives done, else review gives in_review, else any of
implementation, tests or documentation gives in_progress, else
to_do. -/
theorem C6_status_mapping (p : Progress) :
    (derive_status p = "done".toList ↔ p.acceptance = true)
    ∧ (derive_status p = "in_review".toList ↔ p.acceptance = false ∧ p.review = true)
    ∧ (derive_status p = "in_progress".toList ↔
        p.acceptance = false ∧ p.review = false
        ∧ (p.implementation = true ∨ p.tests = true ∨ p.documentation = true))
    ∧ (derive_status p = "to_do".toList ↔
        p.acceptance = false ∧ p.review = false ∧ p.implementation = false
        ∧ p.tests = false ∧ p.documentation = false) := by
  rcases p with ⟨s, i, t, d, r, a⟩
  cases s <;> cases i <;> cases t <;> cases d <;> cases r <;> cases a <;> decide

/-- C8: a document without the checklist header marker is returned
unchanged by the section rewrite for every new state, and parses to the
all-false default state. -/
theorem C8_no_header_noop (description : List Char) (p : Progress)
    (h : containsSub progressHeader description = false) :
    _update_progress_section description p = description
    ∧ _parse_progress_section description = defaultProgress := by
  have hf := findSub_eq_none_of_contains_false progressHeader description h
  constructor
  · unfold _update_progress_section
    rw [hf]
  · unfold _parse_progress_section
    rw [hf]

/-- C8 witness: a concrete header-free document is untouched and parses
to the default state. -/
theorem C8_no_header_noop_witness :
    containsSub progressHeader docPlainText = false
    ∧ _update_progress_section docPlainText defaultProgress = docPlainText
    ∧ _parse_progress_section docPlainText = defaultProgress := by
  refine ⟨by decide, ?_, ?_⟩
  · exact (C8_no_header_noop docPlainText defaultProgress (by decide)).1
  · exact (C8_no_header_noop docPlainText defaultProgress (by decide)).2

/-- C10: registering a merge request whose key is already tracked
leaves the store unchanged for every supplied issue key and timestamp,
so the existing entry is preserved verbatim. -/
theorem C10_add_existing_noop (store : TrackedStore) (project_id mr_iid : Nat)
    (e : TrackedEntry) (issue_key : List Char) (now : Nat)
    (h : (mrKey project_id mr_iid, e) ∈ store) :
    add_merge_request store project_id mr_iid issue_key now = store := by
  have hx : store.any (fun kv => kv.fst == mrKey project_id mr_iid) = true := by
    rw [List.any_eq_true]
    exact ⟨(mrKey project_id mr_iid, e), h, by simp⟩
  unfold add_merge_request
  simp [hx]

/-- C10 witness: adding an already-tracked key with a different issue
key leaves the concrete store unchanged. -/
theorem C10_add_existing_noop_witness :
    (mrKey 4 7, entryRegistered) ∈ storeRegistered
    ∧ add_merge_request storeRegistered 4 7 ("OTHER-5".toList) 99 = storeRegistered := by
  constructor
  · decide
  · exact C10_add_existing_noop storeRegistered 4 7 entryRegistered
      ("OTHER-5".toList) 99 (by decide)

/-- Helper: a filtered list is nonempty exactly when some member
satisfies the filter. -/
theorem filter_length_pos_iff {α : Type} (f : α → Bool) :
    ∀ l : List α, (0 < (l.filter f).length) ↔ ∃ x, x ∈ l ∧ f x = true := by
  intro l
  induction l with
  | nil => simp
  | cons a t ih => cases hfa : f a <;> simp [List.filter_cons, hfa, ih]

/-- C9: the tests signal is true iff the tree listing under the tests
root holds at least one path beginning with the `test_` name marker,
and, when the pipeline status is known, that status equals success. -/
theorem C9_tests_signal (testsTree : List (List Char)) (pipeline : Option (List Char)) :
    check_test_progress testsTree pipeline = true ↔
      ((∃ path, path ∈ testsTree ∧ ("test_".toList).isPrefixOf path = true)
       ∧ (∀ st, pipeline = some st → st = "success".toList)) := by
  cases pipeline with
  | none =>
    simp [check_test_progress, filter_length_pos_iff]
  | some st =>
    simp [check_test_progress, filter_length_pos_iff, Bool.and_eq_true,
      decide_eq_true_eq, beq_iff_eq, and_comm]

/-- Helper: after removing a key and refreshing timestamps, no entry of
the store carries that key. -/
theorem removed_key_absent (store : TrackedStore) (project_id mr_iid : Nat) (now : Nat) :
    (set_last_update (remove_merge_request store project_id mr_iid)
        (mrKey project_id mr_iid) now).all
      (fun kv => !(kv.fst == mrKey project_id mr_iid)) = true := by
  rw [List.all_eq_true]
  intro kv hkv
  simp only [set_last_update, List.mem_map] at hkv
  obtain ⟨kv2, hmem2, heq⟩ := hkv
  simp only [remove_merge_request, List.mem_filter] at hmem2
  have hfst : kv.fst = kv2.fst := by
    split at heq <;> simp [← heq]
  simp [hfst, hmem2.2]

/-- C3 counterexample: with a tracked entry whose merge request is
observed `merged`, the monitor-loop body still performs a Jira status
push in that same cycle, refuting the claim that the terminal-state
check short-circuits the push. -/
theorem C3_terminal_push_counterexample :
    (monitor_entry_step storeMonitored entryMonitored docPlainText sigAllFalse
        ("merged".toList) 7).pushes ≠ [] := by
  decide

/-- C3 amended: when the observed merge-request state is terminal
(`merged` or `closed`), the entry is removed from the tracked set, but
status derivation and the Jira push still occur in that cycle: the
lifecycle check does not short-circuit them. -/
theorem C3_terminal_removes_but_pushes (store : TrackedStore) (entry : TrackedEntry)
    (description : List Char) (sig : Signals) (mr_state : List Char) (now : Nat)
    (h : mr_state = "merged".toList ∨ mr_state = "closed".toList) :
    ((monitor_entry_step store entry description sig mr_state now).store.all
        (fun kv => !(kv.fst == mrKey entry.project_id entry.mr_iid))) = true
    ∧ (monitor_entry_step store entry description sig mr_state now).pushes
        = [(entry.issue_key, derive_status (update_progress description sig).progress)] := by
  constructor
  · have hterm : ((mr_state == "merged".toList) || (mr_state == "closed".toList)) = true := by
      rcases h with h | h <;> simp [h]
    simp only [monitor_entry_step, update_merge_request_status, hterm, if_pos]
    exact removed_key_absent store entry.project_id entry.mr_iid now
  · rfl

/-- C3 witness: the amended behavior at a concrete merged entry. -/
theorem C3_terminal_removes_but_pushes_witness :
    ((monitor_entry_step storeMonitored entryMonitored docPlainText sigAllFalse
        ("merged".toList) 7).store.all
      (fun kv => !(kv.fst == mrKey entryMonitored.project_id entryMonitored.mr_iid))) = true
    ∧ (monitor_entry_step storeMonitored entryMonitored docPlainText sigAllFalse
        ("merged".toList) 7).pushes
      = [(entryMonitored.issue_key,
          derive_status (update_progress docPlainText sigAllFalse).progress)] :=
  C3_terminal_removes_but_pushes storeMonitored entryMonitored docPlainText sigAllFalse
    ("merged".toList) 7 (Or.inl rfl)

/-- Helper: a dictionary differs from itself on no item. -/
theorem diffCount_self (p : Progress) : diffCount p p = 0 := by
  simp [diffCount]

/-- Helper: setting one item changes at most one item. -/
theorem diffCount_setItem (p : Progress) (it : ChecklistItem) :
    diffCount p (setItem p it) ≤ 1 := by
  cases it <;> simp [setItem, diffCount] <;> split <;> simp

/-- C7: a checked checkbox line contributes to at most one item, the
one selected by first-match lookup over the fixed ordered keyword
table; in particular a checked line containing both the test and the
documentation keywords (and no earlier keyword of the table) sets only
the tests item. -/
theorem C7_keyword_priority (line : List Char) (p : Progress) :
    (applyCheckedLine line p =
      (if containsSub checkedMark (lower line) then
        match firstMatch (lower line) with
        | some it => setItem p it
        | none => p
       else p))
    ∧ diffCount p (applyCheckedLine line p) ≤ 1
    ∧ (containsSub checkedMark (lower line) = true →
       containsSub kwTest (lower line) = true →
       containsSub kwDocumentation (lower line) = true →
       containsSub kwSetup (lower line) = false →
       containsSub kwImplementation (lower line) = false →
       applyCheckedLine line p = { p with tests := true }) := by
  have hfirst : applyCheckedLine line p =
      (if containsSub checkedMark (lower line) then
        match firstMatch (lower line) with
        | some it => setItem p it
        | none => p
       else p) := by
    cases h1 : containsSub checkedMark (lower line) with
    | false => simp [applyCheckedLine, h1]
    | true =>
      cases h2 : containsSub kwSetup (lower line) <;>
      cases h3 : containsSub kwImplementation (lower line) <;>
      cases h4 : containsSub kwTest (lower line) <;>
      cases h5 : containsSub kwDocumentation (lower line) <;>
      cases h6 : containsSub kwReview (lower line) <;>
      cases h7 : containsSub kwAcceptance (lower line) <;>
        simp [applyCheckedLine, firstMatch, firstMatchIn, orderedKeywords, setItem,
          h1, h2, h3, h4, h5, h6, h7]
  refine ⟨hfirst, ?_, ?_⟩
  · rw [hfirst]
    cases h1 : containsSub checkedMark (lower line) with
    | false => simp [diffCount_self]
    | true =>
      cases hm : firstMatch (lower line) with
      | none => simp [diffCount_self]
      | some it => simpa using diffCount_setItem p it
  · intro h1 h4 h5 h2 h3
    simp [applyCheckedLine, h1, h2, h3, h4]

/-- C7 witness: the concrete checked line mentioning both keywords sets
only the tests item. -/
theorem C7_keyword_priority_witness :
    containsSub checkedMark (lower ("- [x] test documentation".toList)) = true
    ∧ applyCheckedLine ("- [x] test documentation".toList) defaultProgress
        = { defaultProgress with tests := true } := by
  constructor
  · decide
  · exact (C7_keyword_priority ("- [x] test documentation".toList) defaultProgress).2.2
      (by decide) (by decide) (by decide) (by decide) (by decide)

/-- Helper: a successful find lands inside the document. -/
theorem findSub_le_length (n : List Char) :
    ∀ (hay : List Char) (i : Nat), findSub n hay = some i → i ≤ hay.length := by
  intro hay
  induction hay with
  | nil =>
    intro i hi
    unfold findSub at hi
    split at hi
    · simp at hi
      omega
    · simp at hi
  | cons c t ih =>
    intro i hi
    unfold findSub at hi
    split at hi
    · simp at hi
      omega
    · obtain ⟨j, hj, hji⟩ := Option.map_eq_some'.mp hi
      have := ih j hj
      simp [List.length_cons]
      omega

/-- Helper: taking within the first part of an append ignores the
second part. -/
theorem take_append_le {α : Type} (A B : List α) (n : Nat) (h : n ≤ A.length) :
    (A ++ B).take n = A.take n := by
  induction A generalizing n with
  | nil =>
    simp at h
    simp [h]
  | cons a t ih =>
    cases n with
    | zero => rfl
    | succ m =>
      show a :: (t ++ B).take m = a :: t.take m
      rw [ih m (by simpa using h)]

/-- Helper: dropping the full first part of an append leaves the second
part. -/
theorem drop_len_append {α : Type} (A B : List α) : (A ++ B).drop A.length = B := by
  induction A with
  | nil => rfl
  | cons a t ih =>
    show (t ++ B).drop t.length = B
    exact ih

/-- C5 counterexample: the claim says the section terminates at the
next header marker of equal or higher level and that text from that
header onward is preserved verbatim.  On a document whose section is
followed by a level-one header and no further `##`, the rewrite deletes
that header and everything after it. -/
theorem C5_outside_text_deleted_counterexample :
    containsSub ("# Top".toList) docLevelOneTail = true
    ∧ containsSub ("# Top".toList)
        (_update_progress_section docLevelOneTail defaultProgress) = false := by
  constructor
  · decide
  · decide

/-- C5 amended: the recognized section runs from the header marker to
the next occurrence of the two-character marker `##` (wherever it
occurs), or to end-of-document when there is none; the rewrite
preserves the text before the header verbatim and the text from that
`##` occurrence onward verbatim, and deletes everything after the
header when no `##` occurrence follows. -/
theorem C5_amended_frame (doc : List Char) (p : Progress) (s e : Nat)
    (hs : findSub progressHeader doc = some s) :
    ((_update_progress_section doc p).take s = doc.take s)
    ∧ (findSubFrom hashMarker doc (s + 1) = some e →
        (_update_progress_section doc p).drop (s + (renderProgressSection p).length)
          = doc.drop e)
    ∧ (findSubFrom hashMarker doc (s + 1) = none →
        _update_progress_section doc p = doc.take s ++ renderProgressSection p) := by
  have hsle : s ≤ doc.length := findSub_le_length progressHeader doc s hs
  have hlen : (doc.take s).length = s := by
    simp [List.length_take]
    omega
  cases hf : findSubFrom hashMarker doc (s + 1) with
  | none =>
    refine ⟨?_, ?_, ?_⟩
    · simp only [_update_progress_section, hs, hf]
      rw [take_append_le _ _ s (by rw [hlen])]
      simp [List.take_take]
    · intro h
      simp at h
    · intro _
      simp only [_update_progress_section, hs, hf]
  | some e2 =>
    refine ⟨?_, ?_, ?_⟩
    · simp only [_update_progress_section, hs, hf]
      rw [take_append_le _ _ s (by simp [List.length_append, hlen])]
      rw [take_append_le _ _ s (by rw [hlen])]
      simp [List.take_take]
    · intro h
      have he : e2 = e := by
        injection h
      subst he
      simp only [_update_progress_section, hs, hf]
      have hAlen : (doc.take s ++ renderProgressSection p).length
          = s + (renderProgressSection p).length := by
        simp [List.length_append, hlen]
      rw [← hAlen]
      exact drop_len_append _ _
    · intro h
      simp at h

/-- C5 witness: on a concrete document whose section is closed by a
later `##` header, the prefix before the header and the suffix from the
terminating marker onward survive the rewrite verbatim. -/
theorem C5_amended_frame_witness :
    findSub progressHeader docWithTail = some 6
    ∧ findSubFrom hashMarker docWithTail 7 = some 32
    ∧ (_update_progress_section docWithTail defaultProgress).take 6 = docWithTail.take 6
    ∧ (_update_progress_section docWithTail defaultProgress).drop
        (6 + (renderProgressSection defaultProgress).length) = docWithTail.drop 32 := by
  refine ⟨by decide, by decide, ?_, ?_⟩
  · exact (C5_amended_frame docWithTail defaultProgress 6 32 (by decide)).1
  · exact (C5_amended_frame docWithTail defaultProgress 6 32 (by decide)).2.1 (by decide)

/-- C6 witness: a concrete state with only review true derives the
in_review status. -/
theorem C6_status_mapping_witness :
    derive_status { defaultProgress with review := true } = "in_review".toList :=
  ((C6_status_mapping { defaultProgress with review := true }).2.1).mpr (by decide)

/-- C9 witness: one test-named file and a successful pipeline make the
tests signal true. -/
theorem C9_tests_signal_witness :
    check_test_progress [("test_app.py".toList)] (some ("success".toList)) = true :=
  (C9_tests_signal [("test_app.py".toList)] (some ("success".toList))).mpr
    ⟨⟨"test_app.py".toList, by decide, by decide⟩, by
      intro st h
      injection h with h2
      exact h2.symm⟩
